import Mathlib

/-!
Verification of the `forge-issue-log` resolver
(`src/resolvers/devSuvitha.js`): a shallow embedding of the relative-time
filter resolver and the activity aggregation routine, with theorems about
its filtering, normalization and error-handling behaviour.

Modelling conventions:
* A JavaScript `Date` is its time value: milliseconds since the Unix epoch,
  as an `Int` (the ECMAScript internal representation).  Calendar getters
  and setters (`getMonth`, `setMonth`, `getFullYear`, `setFullYear`) are
  implemented over the proleptic Gregorian calendar at UTC, following the
  ECMAScript `MakeDay`/`MakeDate` normalization rules.
* Raw JSON timestamps are modelled as the instants they denote (`Int`),
  and `new Date(s).toISOString()` — an injective, order-preserving
  rendering of an instant — is modelled as the instant itself.
* Each HTTP fetch is an oracle value: `ok` with the parsed payload,
  `httpError` with a status, or `thrown` (transport-level exception).
  A `World` bundles the three oracles and the wall clock.
* JavaScript truthiness of strings (`""` is falsy) is modelled explicitly
  where the source relies on `||` chains.
-/

/-- JavaScript `a || b` for an optional string `a`: yields `a`'s value when
it is present and truthy (non-empty), else the default `b`. -/
def jsOrStr (a : Option String) (b : String) : String :=
  match a with
  | some s => if s = "" then b else s
  | none => b

/-! ## Calendar arithmetic (ECMAScript `Date` at UTC) -/

def msPerDay : Int := 86400000

/-- ECMAScript `Day(t)`: the day number containing instant `t` (floor). -/
def jsDay (t : Int) : Int := t.fdiv msPerDay

/-- ECMAScript `TimeWithinDay(t)`: milliseconds since midnight of `Day(t)`. -/
def jsTimeWithinDay (t : Int) : Int := t.fmod msPerDay

/-- Civil date (year, month 1..12, day 1..31) from a day number relative to
1970-01-01, proleptic Gregorian calendar (standard era-based algorithm). -/
def civilFromDays (z0 : Int) : Int × Int × Int :=
  let z := z0 + 719468
  let era := z.fdiv 146097
  let doe := z - era * 146097
  let yoe := (doe - doe.fdiv 1460 + doe.fdiv 36524 - doe.fdiv 146096).fdiv 365
  let y := yoe + era * 400
  let doy := doe - (365 * yoe + yoe.fdiv 4 - yoe.fdiv 100)
  let mp := (5 * doy + 2).fdiv 153
  let d := doy - (153 * mp + 2).fdiv 5 + 1
  let m := mp + (if mp < 10 then 3 else -9)
  (y + (if m ≤ 2 then 1 else 0), m, d)

/-- Day number relative to 1970-01-01 of a civil date (year, month 1..12,
day — the day may exceed the month length; excess days roll forward, as in
ECMAScript `MakeDay`). -/
def daysFromCivil (y m d : Int) : Int :=
  let y' := y - (if m ≤ 2 then 1 else 0)
  let era := y'.fdiv 400
  let yoe := y' - era * 400
  let doy := (153 * (m + (if 2 < m then -3 else 9)) + 2).fdiv 5 + d - 1
  let doe := yoe * 365 + yoe.fdiv 4 - yoe.fdiv 100 + doy
  era * 146097 + doe - 719468

/-- `Date.prototype.getFullYear` (UTC model). -/
def jsGetFullYear (t : Int) : Int := (civilFromDays (jsDay t)).1

/-- `Date.prototype.getMonth` (UTC model): zero-based month 0..11. -/
def jsGetMonth (t : Int) : Int := (civilFromDays (jsDay t)).2.1 - 1

/-- `Date.prototype.getDate` (UTC model): day of month 1..31. -/
def jsGetDate (t : Int) : Int := (civilFromDays (jsDay t)).2.2

/-- ECMAScript `MakeDate(MakeDay(y, month, d), msWithinDay)`: the month is an
arbitrary integer (zero-based) and is normalized into the year; a day beyond
the month's length rolls into the following month. -/
def jsMakeDate (y month d msWithinDay : Int) : Int :=
  let ym := y + month.fdiv 12
  let mn := month.fmod 12
  daysFromCivil ym (mn + 1) d * msPerDay + msWithinDay

/-- `Date.prototype.setMonth` (UTC model): keeps the year, day-of-month and
time-of-day, replaces the month, normalizing per the calendar rules. -/
def jsSetMonth (t newMonth : Int) : Int :=
  jsMakeDate (jsGetFullYear t) newMonth (jsGetDate t) (jsTimeWithinDay t)

/-- `Date.prototype.setFullYear` (UTC model). -/
def jsSetFullYear (t newYear : Int) : Int :=
  jsMakeDate newYear (jsGetMonth t) (jsGetDate t) (jsTimeWithinDay t)

/-! ## Filter resolver (`parseRelativeTime`, source lines 8–31) -/

/-- `parseRelativeTime(filterValue)` with the captured `now` made explicit:
maps a relative-time token to a cutoff instant, or `none` for no filtering
(`"all"` and every unrecognized token fall to the `default` branch). -/
def parseRelativeTime (filterValue : String) (now : Int) : Option Int :=
  if filterValue = "24h" then some (now - 24 * 60 * 60 * 1000)
  else if filterValue = "7d" then some (now - 7 * 24 * 60 * 60 * 1000)
  else if filterValue = "30d" then some (now - 30 * 24 * 60 * 60 * 1000)
  else if filterValue = "6m" then some (jsSetMonth now (jsGetMonth now - 6))
  else if filterValue = "1y" then some (jsSetFullYear now (jsGetFullYear now - 1))
  else none

/-- Cutoff check shared by all three sources: an entry passes when no cutoff
is set or its timestamp is at-or-after the cutoff
(`if (!cutoffDate) return true; return entryDate >= cutoffDate`). -/
def passesCutoff (cutoffDate : Option Int) (created : Int) : Bool :=
  match cutoffDate with
  | none => true
  | some c => decide (c ≤ created)

/-! ## Raw upstream shapes and normalized activity records -/

/-- Outcome of one upstream HTTP request: parsed payload, non-success
status, or a thrown transport/parse exception. -/
inductive FetchResult (α : Type) where
  | ok (payload : α)
  | httpError (status : Nat)
  | thrown
deriving DecidableEq

/-- Leaf of the comment-body document tree (`{text: ...}`). -/
structure AdfLeaf where
  text : Option String
deriving DecidableEq

/-- Inner node of the comment-body document tree (`{content: [...]}`). -/
structure AdfNode where
  content : Option (List AdfLeaf)
deriving DecidableEq

/-- A comment body: either a rich document (`{content: [{content: [{text}]}]}`)
or a plain string (legacy shape). -/
inductive CommentBody where
  | doc (content : Option (List AdfNode))
  | str (s : String)
deriving DecidableEq

/-- Value of the normalized comment's `content` field: the extracted text,
the raw body object (when extraction fails on a document body, JavaScript
`||` yields the truthy object itself), or the placeholder string. -/
inductive ContentVal where
  | str (s : String)
  | rawBody (b : CommentBody)
deriving DecidableEq

/-- `comment.body?.content?.[0]?.content?.[0]?.text`: best-effort optional
chaining into the document tree. -/
def adfText (body : Option CommentBody) : Option String :=
  match body with
  | some (.doc c) =>
    (c >>= List.head?) >>= fun node => (node.content >>= List.head?) >>= AdfLeaf.text
  | _ => none

/-- The `|| comment.body || "Comment content unavailable"` fallback chain:
a present document body is a truthy object; a plain-string body is truthy
iff non-empty. -/
def commentBodyFallback (body : Option CommentBody) : ContentVal :=
  match body with
  | some (.doc c) => .rawBody (.doc c)
  | some (.str s) => if s = "" then .str "Comment content unavailable" else .str s
  | none => .str "Comment content unavailable"

/-- Full content extraction
(`comment.body?.content?.[0]?.content?.[0]?.text || comment.body || "Comment content unavailable"`). -/
def extractCommentContent (body : Option CommentBody) : ContentVal :=
  match adfText body with
  | some t => if t = "" then commentBodyFallback body else .str t
  | none => commentBodyFallback body

/-- A raw comment from the comment sub-resource (`author` holds
`author?.displayName`; timestamps are the instants the JSON strings denote). -/
structure RawComment where
  author : Option String
  body : Option CommentBody
  created : Int
  updated : Option Int
  id : String
deriving DecidableEq

/-- Normalized comment activity record (source lines 59–72). -/
structure CommentRecord where
  issueKey : String
  type : String
  author : String
  content : ContentVal
  created : Int
  updated : Option Int
  id : String
deriving DecidableEq

/-- The per-comment normalization (the `.map` body of `fetchIssueComments`). -/
def commentToRecord (issueKey : String) (comment : RawComment) : CommentRecord :=
  { issueKey := issueKey
    type := "comment"
    author := jsOrStr comment.author "Unknown"
    content := extractCommentContent comment.body
    created := comment.created
    updated := comment.updated
    id := comment.id }

/-- `fetchIssueComments(issueKey, cutoffDate)` (source lines 39–77), with the
HTTP outcome made explicit: a non-ok response or a thrown exception yields
the empty list (its own try/catch); an ok response's `json.comments || []`
is filtered by the cutoff then normalized. -/
def fetchIssueComments (issueKey : String) (cutoffDate : Option Int)
    (resp : FetchResult (Option (List RawComment))) : List CommentRecord :=
  match resp with
  | .thrown => []
  | .httpError _ => []
  | .ok comments? =>
    ((comments?.getD []).filter fun comment => passesCutoff cutoffDate comment.created).map
      (commentToRecord issueKey)

/-- A raw attachment from `json.fields?.attachment`. -/
structure RawAttachment where
  author : Option String
  filename : String
  size : Int
  mimeType : String
  created : Int
  id : String
  content : String
deriving DecidableEq

/-- Normalized attachment activity record (source lines 105–115). -/
structure AttachmentRecord where
  issueKey : String
  type : String
  author : String
  filename : String
  size : Int
  mimeType : String
  created : Int
  id : String
  content : String
deriving DecidableEq

/-- The per-attachment normalization (the `.map` body of `fetchIssueAttachments`). -/
def attachmentToRecord (issueKey : String) (attachment : RawAttachment) : AttachmentRecord :=
  { issueKey := issueKey
    type := "attachment"
    author := jsOrStr attachment.author "Unknown"
    filename := attachment.filename
    size := attachment.size
    mimeType := attachment.mimeType
    created := attachment.created
    id := attachment.id
    content := attachment.content }

/-- `fetchIssueAttachments(issueKey, cutoffDate)` (source lines 85–120), with
the HTTP outcome made explicit; failures degrade to the empty list. -/
def fetchIssueAttachments (issueKey : String) (cutoffDate : Option Int)
    (resp : FetchResult (Option (List RawAttachment))) : List AttachmentRecord :=
  match resp with
  | .thrown => []
  | .httpError _ => []
  | .ok attachments? =>
    ((attachments?.getD []).filter fun attachment =>
        passesCutoff cutoffDate attachment.created).map
      (attachmentToRecord issueKey)

/-- One field change inside a changelog history entry. -/
structure HistoryItem where
  field : String
  fromString : Option String
  toString : Option String
deriving DecidableEq

/-- A changelog history entry: one author/timestamp bundling several field
changes (`author` holds `author?.displayName`). -/
structure HistoryEntry where
  author : Option String
  created : Int
  items : List HistoryItem
deriving DecidableEq

/-- Normalized changelog activity record (source lines 173–181). -/
structure ChangelogRecord where
  issueKey : String
  type : String
  author : String
  field : String
  «from» : String
  «to» : String
  date : Int
deriving DecidableEq

/-- The per-item normalization (the inner `entry.items.map` body of the
changelog pipeline). -/
def changelogItemRecord (issueKey : String) (entry : HistoryEntry)
    (item : HistoryItem) : ChangelogRecord :=
  { issueKey := issueKey
    type := "changelog"
    author := jsOrStr entry.author "Unknown"
    field := item.field
    «from» := jsOrStr item.fromString "-"
    «to» := jsOrStr item.toString "-"
    date := entry.created }

/-- The changelog pipeline of `devSuvitha` (source lines 166–182): filter the
history entries by the cutoff, then flatten each entry into one record per
changed field. -/
def changelogNormalize (issueKey : String) (cutoffDate : Option Int)
    (allChanges : List HistoryEntry) : List ChangelogRecord :=
  ((allChanges.filter fun entry => passesCutoff cutoffDate entry.created).flatMap
    fun entry => entry.items.map (changelogItemRecord issueKey entry))

/-! ## Request extraction and the aggregator -/

/-- The `filter` value on the request: a bare string or an object with an
optional `value` field. -/
inductive FilterVal where
  | str (s : String)
  | obj (value : Option String)
deriving DecidableEq

/-- JavaScript truthiness of a `filter` value: objects are always truthy,
strings iff non-empty. -/
def filterTruthy : FilterVal → Bool
  | .str s => !(s = "")
  | .obj _ => true

/-- JavaScript `a || b` for an optional `filter` value. -/
def jsOrFilter (a : Option FilterVal) (b : FilterVal) : FilterVal :=
  match a with
  | some fv => if filterTruthy fv then fv else b
  | none => b

/-- The request's nested `payload` object. -/
structure Payload where
  issueKey : Option String := none
  filter : Option FilterVal := none
deriving DecidableEq

/-- The inbound request object. -/
structure Req where
  issueKey : Option String := none
  payload : Option Payload := none
  filter : Option FilterVal := none
deriving DecidableEq

/-- `req.issueKey || req.payload?.issueKey || "KC-24"` (source line 130). -/
def extractIssueKey (req : Req) : String :=
  jsOrStr req.issueKey (jsOrStr (req.payload.bind Payload.issueKey) "KC-24")

/-- `req.filter || req.payload?.filter || "all"` (source line 131). -/
def extractRawFilter (req : Req) : FilterVal :=
  jsOrFilter req.filter (jsOrFilter (req.payload.bind Payload.filter) (.str "all"))

/-- `typeof rawFilter === "string" ? rawFilter : rawFilter?.value || "all"`
(source lines 134–135). -/
def extractFilterValue (req : Req) : String :=
  match extractRawFilter req with
  | .str s => s
  | .obj v => jsOrStr v "all"

/-- The result envelope (source lines 192–197). -/
structure Envelope where
  changelog : List ChangelogRecord
  comments : List CommentRecord
  attachments : List AttachmentRecord
  total : Nat
deriving DecidableEq

/-- The all-empty envelope returned on the non-ok and exception paths
(source lines 153–158 and 209–214). -/
def emptyEnvelope : Envelope :=
  { changelog := [], comments := [], attachments := [], total := 0 }

/-- The upstream world one `devSuvitha` call observes: the outcome of each
of the three fetches (changelog expansion, comment sub-resource, attachment
field) and the wall-clock instant captured by `parseRelativeTime`. -/
structure World where
  changelogResp : FetchResult (Option (List HistoryEntry))
  commentsResp : FetchResult (Option (List RawComment))
  attachmentsResp : FetchResult (Option (List RawAttachment))
  now : Int
deriving DecidableEq

/-- The aggregator `devSuvitha(req)` (source lines 127–216).  A thrown
changelog fetch reaches the top-level catch (all-empty envelope); a non-ok
changelog response returns early with the all-empty envelope (lines
150–159); otherwise the three collections are assembled and `total` is the
sum of their lengths.  Exceptions inside the comment/attachment helpers are
caught locally and never reach the top-level catch. -/
def devSuvitha (req : Req) (w : World) : Envelope :=
  let issueKey := extractIssueKey req
  let filterValue := extractFilterValue req
  let cutoffDate := parseRelativeTime filterValue w.now
  match w.changelogResp with
  | .thrown => emptyEnvelope
  | .httpError _ => emptyEnvelope
  | .ok histories? =>
    let changelogEntries := changelogNormalize issueKey cutoffDate (histories?.getD [])
    let comments := fetchIssueComments issueKey cutoffDate w.commentsResp
    let attachments := fetchIssueAttachments issueKey cutoffDate w.attachmentsResp
    { changelog := changelogEntries
      comments := comments
      attachments := attachments
      total := changelogEntries.length + comments.length + attachments.length }

/-! ## Spec-side definitions for refinement claims -/

/-- Modelled from the spec's words: calendar subtraction of six months —
"now with the month-of-year decremented by 6, with the same day-of-month
and time-of-day", normalized per the host calendar's month-arithmetic
rules. -/
def specCalendarMinus6Months (now : Int) : Int :=
  jsMakeDate (jsGetFullYear now) (jsGetMonth now - 6) (jsGetDate now) (jsTimeWithinDay now)

/-- Modelled from the spec's words: "now with the year decremented by 1,
same month/day/time". -/
def specCalendarMinus1Year (now : Int) : Int :=
  jsMakeDate (jsGetFullYear now - 1) (jsGetMonth now) (jsGetDate now) (jsTimeWithinDay now)

/-! ## Concrete fixtures used by counterexamples and witnesses -/

/-- A comment fixture. -/
def rawComment1 : RawComment :=
  { author := some "Ana", body := none, created := 0, updated := none, id := "10001" }

/-- An attachment fixture. -/
def rawAttachment1 : RawAttachment :=
  { author := some "Bo", filename := "notes.txt", size := 12, mimeType := "text/plain",
    created := 5, id := "20001", content := "att-20001" }

/-- A one-item history entry fixture. -/
def historyEntry1 : HistoryEntry :=
  { author := some "Cy", created := 7,
    items := [{ field := "status", fromString := some "To Do", toString := some "Done" }] }

/-- A two-item history entry fixture (`status` and `priority` changed at one
instant by one author). -/
def historyEntry2 : HistoryEntry :=
  { author := some "Dana", created := 42,
    items := [{ field := "status", fromString := some "To Do", toString := some "In Progress" },
              { field := "priority", fromString := some "Low", toString := some "High" }] }

/-- A world where the changelog fetch returns HTTP 500 while the comment and
attachment sources hold data. -/
def worldChangelog500 : World :=
  { changelogResp := .httpError 500
    commentsResp := .ok (some [rawComment1])
    attachmentsResp := .ok (some [])
    now := 0 }

/-- A world where the comments fetch throws while the changelog and
attachment fetches succeed. -/
def worldCommentsDown : World :=
  { changelogResp := .ok (some [historyEntry1])
    commentsResp := .thrown
    attachmentsResp := .ok (some [rawAttachment1])
    now := 0 }

/-- A comment created before a cutoff but updated after it. -/
def lateUpdatedComment : RawComment :=
  { author := some "Eve", body := some (.str "hi"), created := 0, updated := some 10,
    id := "30001" }

/-! ## Claim theorems -/

/-- C4: every input string outside the recognized tokens `24h`, `7d`, `30d`,
`6m`, `1y` — including the empty string and the literal token `"all"` —
resolves to no cutoff (`none`); the resolver is total, so it returns a value
for every input string. -/
theorem parseRelativeTime_unrecognized_none (s : String) (now : Int)
    (h1 : s ≠ "24h") (h2 : s ≠ "7d") (h3 : s ≠ "30d") (h4 : s ≠ "6m")
    (h5 : s ≠ "1y") : parseRelativeTime s now = none := by
  simp [parseRelativeTime, h1, h2, h3, h4, h5]

/-- Witness for C4: the empty string and the literal `"all"` both resolve to
no cutoff. -/
theorem parseRelativeTime_unrecognized_none_witness :
    parseRelativeTime "" 0 = none ∧ parseRelativeTime "all" 0 = none :=
  ⟨parseRelativeTime_unrecognized_none "" 0 (by decide) (by decide) (by decide)
      (by decide) (by decide),
   parseRelativeTime_unrecognized_none "all" 0 (by decide) (by decide) (by decide)
      (by decide) (by decide)⟩

/-- C5: for the tokens `24h`, `7d` and `30d`, the cutoff is the captured
current instant minus exactly 24 hours, 7×24 hours and 30×24 hours of
milliseconds respectively — a fixed-duration subtraction. -/
theorem parseRelativeTime_fixed_durations (now : Int) :
    parseRelativeTime "24h" now = some (now - 24 * 60 * 60 * 1000) ∧
    parseRelativeTime "7d" now = some (now - 7 * 24 * 60 * 60 * 1000) ∧
    parseRelativeTime "30d" now = some (now - 30 * 24 * 60 * 60 * 1000) := by
  refine ⟨rfl, ?_, ?_⟩ <;> simp [parseRelativeTime]

/-- C6: for `6m` the resolver performs calendar subtraction — the month
decremented by 6 with the same day-of-month and time-of-day, normalized per
the host calendar's month-arithmetic rules — and for `1y` it decrements the
year keeping month, day and time; moreover at now = 2024-03-31T00:00:00Z
the `6m` cutoff is not the flat 180×24h offset. -/
theorem parseRelativeTime_calendar_subtraction :
    (∀ now : Int, parseRelativeTime "6m" now = some (specCalendarMinus6Months now)) ∧
    (∀ now : Int, parseRelativeTime "1y" now = some (specCalendarMinus1Year now)) ∧
    parseRelativeTime "6m" (daysFromCivil 2024 3 31 * msPerDay) ≠
      some (daysFromCivil 2024 3 31 * msPerDay - 180 * msPerDay) := by
  refine ⟨fun now => ?_, fun now => ?_, by decide⟩ <;>
    simp [parseRelativeTime, specCalendarMinus6Months, specCalendarMinus1Year,
      jsSetMonth, jsSetFullYear]

/-- C2: on every path — success, non-success changelog response, and thrown
changelog fetch — the envelope's `total` equals the sum of the lengths of
its three sequences. -/
theorem devSuvitha_total_eq_sum (req : Req) (w : World) :
    (devSuvitha req w).total =
      (devSuvitha req w).changelog.length + (devSuvitha req w).comments.length +
        (devSuvitha req w).attachments.length := by
  unfold devSuvitha
  cases w.changelogResp <;> rfl

/-- Counterexample for C1: with the changelog fetch returning HTTP 500 and
the comments source holding one comment, the envelope's `comments` is NOT
the result of the comments fetch — the aggregator returned early with the
all-empty envelope, so the comment does not appear. -/
theorem devSuvitha_changelog_failure_not_isolated_cex :
    (devSuvitha {} worldChangelog500).comments ≠
      fetchIssueComments (extractIssueKey {})
        (parseRelativeTime (extractFilterValue {}) worldChangelog500.now)
        worldChangelog500.commentsResp := by
  decide

/-- C1 (amended): when the changelog fetch returns a non-success response,
the whole aggregation short-circuits to the all-empty envelope with total 0
— the comments and attachments fetches do not contribute to the result. -/
theorem devSuvitha_changelog_httpError_all_empty (req : Req) (w : World) (s : Nat)
    (h : w.changelogResp = .httpError s) : devSuvitha req w = emptyEnvelope := by
  unfold devSuvitha
  rw [h]

/-- Witness for the amended C1 at a concrete request and world. -/
theorem devSuvitha_changelog_httpError_all_empty_witness :
    devSuvitha {} worldChangelog500 = emptyEnvelope :=
  devSuvitha_changelog_httpError_all_empty {} worldChangelog500 500 rfl

/-- C3: when the comments fetch fails (thrown exception or non-success
response) while the changelog and attachments fetches succeed, the
envelope's `comments` is empty, the changelog and attachment collections
are exactly what their own sources yield (siblings unaffected), and `total`
equals the changelog length plus the attachments length. -/
theorem devSuvitha_comments_failure_isolated (req : Req) (w : World)
    (histories? : Option (List HistoryEntry)) (attachments? : Option (List RawAttachment))
    (hc : w.changelogResp = .ok histories?)
    (hm : w.commentsResp = FetchResult.thrown ∨ ∃ s, w.commentsResp = .httpError s)
    (ha : w.attachmentsResp = .ok attachments?) :
    (devSuvitha req w).comments = [] ∧
    (devSuvitha req w).changelog =
      changelogNormalize (extractIssueKey req)
        (parseRelativeTime (extractFilterValue req) w.now) (histories?.getD []) ∧
    (devSuvitha req w).attachments =
      fetchIssueAttachments (extractIssueKey req)
        (parseRelativeTime (extractFilterValue req) w.now) (.ok attachments?) ∧
    (devSuvitha req w).total =
      (devSuvitha req w).changelog.length + (devSuvitha req w).attachments.length := by
  unfold devSuvitha
  rw [hc, ha]
  rcases hm with hm | ⟨s, hm⟩ <;> rw [hm] <;> simp [fetchIssueComments]

/-- Witness for C3 at a concrete world whose comments fetch throws. -/
theorem devSuvitha_comments_failure_isolated_witness :
    (devSuvitha {} worldCommentsDown).comments = [] ∧
    (devSuvitha {} worldCommentsDown).total =
      (devSuvitha {} worldCommentsDown).changelog.length +
        (devSuvitha {} worldCommentsDown).attachments.length :=
  ⟨(devSuvitha_comments_failure_isolated {} worldCommentsDown (some [historyEntry1])
      (some [rawAttachment1]) rfl (Or.inl rfl) rfl).1,
   (devSuvitha_comments_failure_isolated {} worldCommentsDown (some [historyEntry1])
      (some [rawAttachment1]) rfl (Or.inl rfl) rfl).2.2.2⟩

/-- C10: the comment cutoff filter tests the creation timestamp only: a
comment created before the cutoff is excluded even when its updated
timestamp is at-or-after the cutoff. -/
theorem fetchIssueComments_cutoff_uses_created_only (issueKey : String) (c : Int)
    (rc : RawComment) (u : Int) (hu : rc.updated = some u) (hcu : c ≤ u)
    (hlt : rc.created < c) :
    fetchIssueComments issueKey (some c) (.ok (some [rc])) = [] := by
  have hfail : passesCutoff (some c) rc.created = false := by
    simp only [passesCutoff, decide_eq_false_iff_not]
    omega
  simp [fetchIssueComments, List.filter_cons, hfail]

/-- Witness for C10: a comment created at 0 and updated at 10 is excluded by
the cutoff 5. -/
theorem fetchIssueComments_cutoff_uses_created_only_witness :
    fetchIssueComments "KC-24" (some 5) (.ok (some [lateUpdatedComment])) = [] :=
  fetchIssueComments_cutoff_uses_created_only "KC-24" 5 lateUpdatedComment 10 rfl
    (by decide) (by decide)

/-- C7: normalizing a history entry that passes the cutoff yields exactly one
changelog record per changed field, and every produced record carries the
entry's author display name and timestamp. -/
theorem changelogNormalize_flattens_entry (issueKey : String) (cutoffDate : Option Int)
    (entry : HistoryEntry) (h : passesCutoff cutoffDate entry.created = true) :
    (changelogNormalize issueKey cutoffDate [entry]).length = entry.items.length ∧
    ∀ r ∈ changelogNormalize issueKey cutoffDate [entry],
      r.author = jsOrStr entry.author "Unknown" ∧ r.date = entry.created := by
  constructor
  · simp [changelogNormalize, List.filter_cons, h]
  · intro r hr
    simp [changelogNormalize, List.filter_cons, h] at hr
    obtain ⟨item, _, rfl⟩ := hr
    exact ⟨rfl, rfl⟩

/-- Witness for C7: an entry bundling a `status` and a `priority` change
under one author/timestamp yields exactly 2 records, both carrying that
author and timestamp. -/
theorem changelogNormalize_flattens_entry_witness :
    (changelogNormalize "KC-24" (some 40) [historyEntry2]).length =
      historyEntry2.items.length ∧
    ∀ r ∈ changelogNormalize "KC-24" (some 40) [historyEntry2],
      r.author = jsOrStr historyEntry2.author "Unknown" ∧ r.date = historyEntry2.created :=
  changelogNormalize_flattens_entry "KC-24" (some 40) historyEntry2 (by decide)

/-- Filtering the mapped records of one history entry on the record's `date`
keeps all of them or none, since every record of the entry carries the
entry's timestamp. -/
theorem filter_mapped_items_of_entry (issueKey : String) (cutoffDate : Option Int)
    (entry : HistoryEntry) (items : List HistoryItem) :
    ((items.map (changelogItemRecord issueKey entry)).filter
        fun r => passesCutoff cutoffDate r.date) =
      if passesCutoff cutoffDate entry.created then
        items.map (changelogItemRecord issueKey entry)
      else [] := by
  induction items with
  | nil => cases h : passesCutoff cutoffDate entry.created <;> simp
  | cons i is ih =>
    cases h : passesCutoff cutoffDate entry.created <;>
      simp_all [List.filter_cons, changelogItemRecord]

/-- C8: for each of the three sources, filtering the raw entries against the
cutoff and then normalizing yields the same sequence as normalizing first
and then filtering the records on the same timestamp field. -/
theorem filter_commutes_with_normalization (issueKey : String) (cutoffDate : Option Int) :
    (∀ comments : List RawComment,
      ((comments.filter fun comment => passesCutoff cutoffDate comment.created).map
          (commentToRecord issueKey)) =
        ((comments.map (commentToRecord issueKey)).filter
          fun r => passesCutoff cutoffDate r.created)) ∧
    (∀ attachments : List RawAttachment,
      ((attachments.filter fun attachment => passesCutoff cutoffDate attachment.created).map
          (attachmentToRecord issueKey)) =
        ((attachments.map (attachmentToRecord issueKey)).filter
          fun r => passesCutoff cutoffDate r.created)) ∧
    (∀ allChanges : List HistoryEntry,
      changelogNormalize issueKey cutoffDate allChanges =
        ((allChanges.flatMap fun entry =>
            entry.items.map (changelogItemRecord issueKey entry)).filter
          fun r => passesCutoff cutoffDate r.date)) := by
  refine ⟨fun comments => by rw [List.filter_map]; rfl,
    fun attachments => by rw [List.filter_map]; rfl, fun allChanges => ?_⟩
  induction allChanges with
  | nil => rfl
  | cons e es ih =>
    rw [List.flatMap_cons, List.filter_append, filter_mapped_items_of_entry,
      changelogNormalize, List.filter_cons]
    cases h : passesCutoff cutoffDate e.created <;>
      simp_all [changelogNormalize, List.flatMap_cons]

/-- C9: the aggregator extracts `issueKey` falling back to the fixed default
`"KC-24"` when it is absent; it accepts the filter as a bare string or as a
nested object with a `value` field and defaults to `"all"` when neither
shape is present; and the extracted filter value is what reaches the
resolver (the changelog collection is computed with the cutoff
`parseRelativeTime` derives from it). -/
theorem devSuvitha_request_extraction :
    (∀ req : Req, req.issueKey = none → req.payload.bind Payload.issueKey = none →
      extractIssueKey req = "KC-24") ∧
    (∀ (req : Req) (s : String), s ≠ "" → req.filter = some (.str s) →
      extractFilterValue req = s) ∧
    (∀ (req : Req) (v : String), v ≠ "" → req.filter = some (.obj (some v)) →
      extractFilterValue req = v) ∧
    (∀ req : Req, req.filter = none → req.payload.bind Payload.filter = none →
      extractFilterValue req = "all") ∧
    (∀ (req : Req) (w : World) (histories? : Option (List HistoryEntry)),
      w.changelogResp = .ok histories? →
      (devSuvitha req w).changelog =
        changelogNormalize (extractIssueKey req)
          (parseRelativeTime (extractFilterValue req) w.now) (histories?.getD [])) := by
  refine ⟨fun req h1 h2 => ?_, fun req s hs hf => ?_, fun req v hv hf => ?_,
    fun req h1 h2 => ?_, fun req w histories? hc => ?_⟩
  · simp [extractIssueKey, h1, h2, jsOrStr]
  · simp [extractFilterValue, extractRawFilter, hf, jsOrFilter, filterTruthy, hs]
  · simp [extractFilterValue, extractRawFilter, hf, jsOrFilter, filterTruthy, jsOrStr, hv]
  · simp [extractFilterValue, extractRawFilter, h1, h2, jsOrFilter]
  · unfold devSuvitha
    rw [hc]

/-- Witness for C9: the defaults and both filter shapes at concrete
requests, and the changelog of a concrete call computed from the extracted
values. -/
theorem devSuvitha_request_extraction_witness :
    extractIssueKey {} = "KC-24" ∧
    extractFilterValue { filter := some (.str "7d") } = "7d" ∧
    extractFilterValue { filter := some (.obj (some "30d")) } = "30d" ∧
    extractFilterValue {} = "all" ∧
    (devSuvitha {} worldCommentsDown).changelog =
      changelogNormalize (extractIssueKey {})
        (parseRelativeTime (extractFilterValue {}) worldCommentsDown.now)
        [historyEntry1] :=
  ⟨devSuvitha_request_extraction.1 {} rfl rfl,
   devSuvitha_request_extraction.2.1 { filter := some (.str "7d") } "7d" (by decide) rfl,
   devSuvitha_request_extraction.2.2.1 { filter := some (.obj (some "30d")) } "30d"
     (by decide) rfl,
   devSuvitha_request_extraction.2.2.2.1 {} rfl rfl,
   devSuvitha_request_extraction.2.2.2.2 {} worldCommentsDown (some [historyEntry1]) rfl⟩
